import Mathlib

/-!
Verification of the listening-history merge pipeline.

Shallow embedding of the three source files:
* `combined_spotify_analytics.py` — historical CSV loader, recent-API fetcher,
  merge engine (`combine_data`), CLI entry point (`main`);
* `streamlit_app.py` — dashboard data loader (`load_data`) and `get_season`.

Modelling conventions:
* A pandas DataFrame is a `List` of rows; a nullable cell is an `Option`.
* Timestamps (`pd.Timestamp`) are `Int` milliseconds since the Unix epoch;
  only their order and calendar decomposition matter to the claims.
* `pd.read_csv` turns an empty CSV field into NaN (its default NA handling);
  `readCell` models this by sending `""` to `none`.
* The max of an empty timestamp column is NaT, and every comparison against
  NaT is `False`; `maxPlayedAt` returns `none` for the empty list and
  `playedAfter none _ = false` models the NaT comparison.
* Python functions that signal failure by returning `False` (leaving their
  output unset) are modelled as `Option`/`Bool × Option` valued functions.
-/

/-- One canonical PlayEvent row, the column set selected at the end of
`load_historical_csv` (source lines 97-99). -/
structure Row where
  played_at : Int
  track_name : Option String
  artist_name : Option String
  album_name : Option String
  duration_ms : Int
  spotify_track_uri : Option String
  platform : Option String
  conn_country : Option String
  shuffle : Option Bool
  skipped : Option Bool
  deriving DecidableEq

/-- One row of the historical export file as read by `pd.read_csv`:
string cells still raw (an empty string is pandas' NA), `ts` already taken
through `pd.to_datetime` (modelled as the abstract instant itself). -/
structure CsvRow where
  ts : Int
  ms_played : Int
  content_type : String
  master_metadata_track_name : String
  master_metadata_album_artist_name : String
  master_metadata_album_album_name : String
  spotify_track_uri : String
  platform : String
  conn_country : String
  shuffle : Option Bool
  skipped : Option Bool
  deriving DecidableEq

/-- `pd.read_csv` default NA handling: an empty field becomes NaN (`none`). -/
def readCell (s : String) : Option String :=
  if s = "" then none else some s

/-- `MIN_PLAY_TIME_MS = 30000` (source line 20). -/
def MIN_PLAY_TIME_MS : Int := 30000

/-- `CONTENT_TYPE_FILTER = 'audio'` (source line 23). -/
def CONTENT_TYPE_FILTER : String := "audio"

/-- Column standardization of `load_historical_csv` (source lines 87-99):
rename/derive the canonical PlayEvent fields from the export columns. -/
def toCanonical (r : CsvRow) : Row :=
  { played_at := r.ts
    track_name := readCell r.master_metadata_track_name
    artist_name := readCell r.master_metadata_album_artist_name
    album_name := readCell r.master_metadata_album_album_name
    duration_ms := r.ms_played
    spotify_track_uri := readCell r.spotify_track_uri
    platform := readCell r.platform
    conn_country := readCell r.conn_country
    shuffle := r.shuffle
    skipped := r.skipped }

/-- `load_historical_csv` (source lines 65-104), the part after the file
exists: duration filter (line 81), content-type filter (line 85),
standardization (lines 87-92), null-track drop via `notna` (line 95). -/
def load_historical_csv (rows : List CsvRow) : List Row :=
  let df := rows.filter (fun r => decide (MIN_PLAY_TIME_MS ≤ r.ms_played))
  let df := df.filter (fun r => decide (r.content_type = CONTENT_TYPE_FILTER))
  let df := df.map toCanonical
  df.filter (fun r => r.track_name.isSome)

/-- `get_season` from `streamlit_app.py` lines 749-757: meteorological
season label from the calendar month. -/
def get_season (month : Int) : String :=
  if month ∈ ([12, 1, 2] : List Int) then "Winter"
  else if month ∈ ([3, 4, 5] : List Int) then "Spring"
  else if month ∈ ([6, 7, 8] : List Int) then "Summer"
  else "Fall"

/-! ### Civil calendar arithmetic

`streamlit_app.py` converts UTC timestamps to US/Eastern and extracts
calendar fields with pandas. The conversion is embedded exactly: proleptic
Gregorian calendar (Hinnant's `days_from_civil` / `civil_from_days`) and the
US daylight-saving rule in force since 2007 (DST from the second Sunday of
March, 2:00 EST = 07:00 UTC, to the first Sunday of November,
2:00 EDT = 06:00 UTC). -/

/-- Days since 1970-01-01 of the civil date `(y, m, d)`. -/
def daysFromCivil (y m d : Int) : Int :=
  let ys := y - (if m ≤ 2 then 1 else 0)
  let era := ys.fdiv 400
  let yoe := ys - era * 400
  let mp := (m + 9).emod 12
  let doy := (153 * mp + 2).fdiv 5 + d - 1
  let doe := yoe * 365 + yoe.fdiv 4 - yoe.fdiv 100 + doy
  era * 146097 + doe - 719468

/-- Civil date `(y, m, d)` of the day `z` days after 1970-01-01. -/
def civilFromDays (z : Int) : Int × Int × Int :=
  let zs := z + 719468
  let era := zs.fdiv 146097
  let doe := zs - era * 146097
  let yoe := (doe - doe.fdiv 1460 + doe.fdiv 36524 - doe.fdiv 146096).fdiv 365
  let y := yoe + era * 400
  let doy := doe - (365 * yoe + yoe.fdiv 4 - yoe.fdiv 100)
  let mp := (5 * doy + 2).fdiv 153
  let d := doy - (153 * mp + 2).fdiv 5 + 1
  let m := mp + (if mp < 10 then 3 else -9)
  (y + (if m ≤ 2 then 1 else 0), m, d)

def civilYear (z : Int) : Int := (civilFromDays z).1

def civilMonth (z : Int) : Int := (civilFromDays z).2.1

/-- Weekday of the day `z` days after 1970-01-01, `0 = Sunday`
(1970-01-01 was a Thursday). -/
def weekdayOfDays (z : Int) : Int := (z + 4).emod 7

def msPerDay : Int := 86400000

def msPerHour : Int := 3600000

def secondSundayOfMarch (y : Int) : Int :=
  let first := daysFromCivil y 3 1
  first + (7 - weekdayOfDays first).emod 7 + 7

def firstSundayOfNovember (y : Int) : Int :=
  let first := daysFromCivil y 11 1
  first + (7 - weekdayOfDays first).emod 7

/-- Whether the UTC instant `t` (epoch ms) falls in US/Eastern daylight
saving time (post-2007 rule; both transitions expressed in UTC). -/
def isEasternDST (t : Int) : Bool :=
  let y := civilYear (t.fdiv msPerDay)
  decide (secondSundayOfMarch y * msPerDay + 7 * msPerHour ≤ t ∧
    t < firstSundayOfNovember y * msPerDay + 6 * msPerHour)

/-- `tz_convert('US/Eastern')` on an epoch-ms instant: the local wall-clock
time as an epoch-ms value (UTC minus 4 h in DST, minus 5 h otherwise). -/
def tz_convert_eastern (t : Int) : Int :=
  t - (if isEasternDST t then 4 * msPerHour else 5 * msPerHour)

/-- `.dt.year` after `tz_convert('US/Eastern')`. -/
def easternYear (t : Int) : Int := civilYear ((tz_convert_eastern t).fdiv msPerDay)

/-- `.dt.month` after `tz_convert('US/Eastern')`. -/
def easternMonth (t : Int) : Int := civilMonth ((tz_convert_eastern t).fdiv msPerDay)

/-! ### Merge Engine (`combine_data`, source lines 155-194) -/

/-- `combined['played_at'].max()` (source line 169): `none` models pandas
NaT, the max of an empty timestamp column. -/
def maxPlayedAt : List Row → Option Int
  | [] => none
  | r :: rs =>
      match maxPlayedAt rs with
      | none => some r.played_at
      | some m => some (max r.played_at m)

/-- The row filter of source line 172,
`self.api_data['played_at'] > last_historical_date`. In pandas a comparison
against NaT is `False` everywhere, so a `none` cutoff admits nothing. -/
def playedAfter (cutoff : Option Int) (r : Row) : Bool :=
  match cutoff with
  | none => false
  | some t => decide (t < r.played_at)

/-- `new_api_data` (source line 172): the Recent rows strictly after the
latest Historical timestamp. -/
def newApiRows (hist api : List Row) : List Row :=
  api.filter (playedAfter (maxPlayedAt hist))

/-- The value of `combined` just before the sort (source lines 163-178):
Historical, plus — when API data is present, non-empty, and contributes
rows past the cutoff — the filtered API rows. -/
def preDedupConcat (hist : List Row) (api_data : Option (List Row)) : List Row :=
  match api_data with
  | some api =>
      if 0 < api.length then
        let new_api_data := newApiRows hist api
        if 0 < new_api_data.length then hist ++ new_api_data else hist
      else hist
  | none => hist

/-- Row order used by `sort_values('played_at')`: compare timestamps. -/
def rowLE (a b : Row) : Prop := a.played_at ≤ b.played_at

instance : DecidableRel rowLE := fun a b =>
  inferInstanceAs (Decidable (a.played_at ≤ b.played_at))

instance : IsTotal Row rowLE := ⟨fun a b => Int.le_total a.played_at b.played_at⟩

instance : IsTrans Row rowLE := ⟨fun _ _ _ hab hbc => Int.le_trans hab hbc⟩

/-- `combined.sort_values('played_at')` (source line 181). -/
def sortRows (l : List Row) : List Row := List.insertionSort rowLE l

/-- The `subset=['played_at', 'track_name', 'artist_name']` dedup key of
source line 184. -/
def rowKey (r : Row) : Int × Option String × Option String :=
  (r.played_at, r.track_name, r.artist_name)

/-- Worker for `drop_duplicates(..., keep='first')`: walk the list keeping
the first row seen for each key. -/
def dropDupFirst : List Row → List (Int × Option String × Option String) → List Row
  | [], _ => []
  | r :: rs, seen =>
      if rowKey r ∈ seen then dropDupFirst rs seen
      else r :: dropDupFirst rs (rowKey r :: seen)

/-- `combined.drop_duplicates(subset=['played_at','track_name','artist_name'],
keep='first')` (source line 184). -/
def drop_duplicates (l : List Row) : List Row := dropDupFirst l []

/-- `combine_data` (source lines 155-194). `historical_data = none` models
`self.historical_data is None` (load never ran / failed): the method prints
an error and returns `False`, modelled as `none`. Otherwise it concatenates,
sorts and dedups, and returns the merged table (`True` in the source). -/
def combine_data (historical_data : Option (List Row)) (api_data : Option (List Row)) :
    Option (List Row) :=
  match historical_data with
  | none => none
  | some hist =>
      let combined := preDedupConcat hist api_data
      let combined := sortRows combined
      let combined := drop_duplicates combined
      some combined

/-! ### Recent-Activity Fetcher (`fetch_recent_api_data`, source lines 106-153) -/

/-- The track object of one recently-played API item (the fields read at
source lines 129-140). -/
structure ApiTrack where
  name : String
  artists : List String
  album : Option String
  duration_ms : Int
  uri : String
  deriving DecidableEq

/-- One item of the `current_user_recently_played` response. -/
structure ApiItem where
  played_at : Int
  track : ApiTrack
  deriving DecidableEq

/-- The per-item mapping of source lines 129-140: first listed artist,
platform sentinel `'API'`, context fields null. -/
def apiItemToRow (item : ApiItem) : Row :=
  { played_at := item.played_at
    track_name := some item.track.name
    artist_name := item.track.artists.head?
    album_name := item.track.album
    duration_ms := item.track.duration_ms
    spotify_track_uri := some item.track.uri
    platform := some "API"
    conn_country := none
    shuffle := none
    skipped := none }

/-- `fetch_recent_api_data` (source lines 106-153). `connected` models
`self.sp is not None`; `callResult` is the outcome of the API call
(`Except.error` for any raised exception). Returns the method's boolean
result and the resulting `self.api_data` (`none` when it was never set:
no connection, or the exception was caught at line 151 and the method
returned `False`). -/
def fetch_recent_api_data (connected : Bool) (callResult : Except String (List ApiItem)) :
    Bool × Option (List Row) :=
  if connected then
    match callResult with
    | Except.error _ => (false, none)
    | Except.ok items =>
        -- On an empty response the DataFrame built at line 142 has no
        -- columns, so the `played_at` conversion at line 143 raises a
        -- KeyError that the same `except` catches: the method returns
        -- `False`, but `self.api_data` keeps the empty table.
        (decide (items ≠ []), some (items.map apiItemToRow))
  else (false, none)

/-! ### CLI entry point (`main`, source lines 271-306) -/

/-- `load_historical_csv`'s outer behavior (source lines 69-71 + 104): if
the CSV file does not exist the method returns `False` and
`self.historical_data` stays `None`; otherwise it loads and returns `True`. -/
def load_csv (csvExists : Bool) (rows : List CsvRow) : Bool × Option (List Row) :=
  if csvExists then (true, some (load_historical_csv rows)) else (false, none)

/-- `main` (source lines 271-302), reduced to its process exit code. Every
`return` path exits 0 (the script never calls `sys.exit`); but after a
successful combine, `main` unconditionally calls `print_statistics` →
`get_statistics` (source lines 196-227, 243-268), which formats
`df['played_at'].min().strftime('%Y-%m-%d')` (line 210). On an empty merged
table that minimum is NaT, `NaT.strftime` raises an uncaught `ValueError`,
and the interpreter exits with a traceback — a non-zero code, modelled
as 1. -/
def main_exit (csvExists : Bool) (rows : List CsvRow) (connected : Bool)
    (callResult : Except String (List ApiItem)) : Nat :=
  match load_csv csvExists rows with
  | (false, _) => 0
  | (_, hist) =>
      match combine_data hist (fetch_recent_api_data connected callResult).2 with
      | none => 0
      | some combined =>
          if combined = [] then 1 else 0

/-! ### Dashboard data loader (`load_data`, `streamlit_app.py` lines 69-95) -/

/-- A dashboard row: the merged-file row plus the derived time columns of
`load_data` (lines 81-93). The float `minutes` column and the display-only
`day_name`/`date` columns are presentation formatting and are not modelled. -/
structure DashRow where
  base : Row
  played_at_local : Int
  year : Int
  month : Int
  hour : Int
  day_of_week : Int
  deriving DecidableEq

/-- `load_data` (`streamlit_app.py` lines 69-95): read the merged file,
convert `played_at` to US/Eastern, keep only rows whose local calendar year
is ≥ 2017, then derive the time-component columns. `pandas.dayofweek` has
Monday = 0, hence the `+ 3` shift from the epoch (a Thursday). -/
def load_data (rows : List Row) : List DashRow :=
  let df := rows.map (fun r => (r, tz_convert_eastern r.played_at))
  let df := df.filter (fun p => decide (2017 ≤ civilYear (p.2.fdiv msPerDay)))
  df.map (fun p =>
    { base := p.1
      played_at_local := p.2
      year := civilYear (p.2.fdiv msPerDay)
      month := civilMonth (p.2.fdiv msPerDay)
      hour := (p.2.emod msPerDay).fdiv msPerHour
      day_of_week := (p.2.fdiv msPerDay + 3).emod 7 })

/-! ### Helper lemmas about the merge pieces -/

theorem maxPlayedAt_le : ∀ (l : List Row) (T : Int), maxPlayedAt l = some T →
    ∀ r ∈ l, r.played_at ≤ T
  | [], _, h => by simp [maxPlayedAt] at h
  | x :: xs, T, h => by
      intro r hr
      rcases List.mem_cons.mp hr with rfl | hr2
      · cases hm : maxPlayedAt xs with
        | none => simp only [maxPlayedAt, hm, Option.some_inj] at h; omega
        | some m =>
            simp only [maxPlayedAt, hm, Option.some_inj] at h
            have := le_max_left r.played_at m
            omega
      · cases hm : maxPlayedAt xs with
        | none =>
            cases xs with
            | nil => simp at hr2
            | cons y ys => simp only [maxPlayedAt] at hm; split at hm <;> simp at hm
        | some m =>
            simp only [maxPlayedAt, hm, Option.some_inj] at h
            have h2 := maxPlayedAt_le xs m hm r hr2
            have := le_max_right x.played_at m
            omega

theorem maxPlayedAt_isSome (l : List Row) (h : l ≠ []) : ∃ T, maxPlayedAt l = some T := by
  cases l with
  | nil => exact absurd rfl h
  | cons x xs =>
      cases hm : maxPlayedAt xs with
      | none => exact ⟨x.played_at, by simp only [maxPlayedAt, hm]⟩
      | some m => exact ⟨max x.played_at m, by simp only [maxPlayedAt, hm]⟩

theorem preDedupConcat_some (hist api : List Row) :
    preDedupConcat hist (some api) = hist ++ newApiRows hist api := by
  simp only [preDedupConcat]
  by_cases h1 : 0 < api.length
  · rw [if_pos h1]
    by_cases h2 : 0 < (newApiRows hist api).length
    · rw [if_pos h2]
    · rw [if_neg h2]
      have hnil : newApiRows hist api = [] := by
        cases he : newApiRows hist api with
        | nil => rfl
        | cons a as => rw [he] at h2; simp at h2
      rw [hnil, List.append_nil]
  · rw [if_neg h1]
    have hnil : api = [] := by
      cases he : api with
      | nil => rfl
      | cons a as => rw [he] at h1; simp at h1
    subst hnil
    simp [newApiRows]

theorem mem_newApiRows (hist api : List Row) (T : Int) (hmax : maxPlayedAt hist = some T)
    (r : Row) : r ∈ newApiRows hist api ↔ r ∈ api ∧ T < r.played_at := by
  simp [newApiRows, List.mem_filter, playedAfter, hmax]

theorem sortRows_sorted (l : List Row) : List.Sorted rowLE (sortRows l) :=
  List.sorted_insertionSort rowLE l

theorem sortRows_perm (l : List Row) : List.Perm (sortRows l) l :=
  List.perm_insertionSort rowLE l

theorem dropDupFirst_sublist : ∀ (l : List Row) (seen : List (Int × Option String × Option String)),
    (dropDupFirst l seen).Sublist l
  | [], _ => List.Sublist.slnil
  | r :: rs, seen => by
      unfold dropDupFirst
      by_cases h : rowKey r ∈ seen
      · rw [if_pos h]
        exact (dropDupFirst_sublist rs seen).cons r
      · rw [if_neg h]
        exact (dropDupFirst_sublist rs (rowKey r :: seen)).cons₂ r

theorem dropDupFirst_not_mem_seen : ∀ (l : List Row)
    (seen : List (Int × Option String × Option String)) (x : Row),
    x ∈ dropDupFirst l seen → rowKey x ∉ seen
  | [], _, x, hx => by simp [dropDupFirst] at hx
  | r :: rs, seen, x, hx => by
      rw [dropDupFirst] at hx
      by_cases h : rowKey r ∈ seen
      · rw [if_pos h] at hx
        exact dropDupFirst_not_mem_seen rs seen x hx
      · rw [if_neg h] at hx
        rcases List.mem_cons.mp hx with rfl | hx
        · exact h
        · have := dropDupFirst_not_mem_seen rs (rowKey r :: seen) x hx
          exact fun hmem => this (List.mem_cons_of_mem _ hmem)

theorem dropDupFirst_pairwise : ∀ (l : List Row)
    (seen : List (Int × Option String × Option String)),
    (dropDupFirst l seen).Pairwise (fun a b => rowKey a ≠ rowKey b)
  | [], _ => List.Pairwise.nil
  | r :: rs, seen => by
      rw [dropDupFirst]
      by_cases h : rowKey r ∈ seen
      · rw [if_pos h]
        exact dropDupFirst_pairwise rs seen
      · rw [if_neg h]
        refine List.Pairwise.cons ?_ (dropDupFirst_pairwise rs (rowKey r :: seen))
        intro b hb hkey
        exact dropDupFirst_not_mem_seen rs (rowKey r :: seen) b hb
          (hkey ▸ List.mem_cons_self _ _)

theorem dropDupFirst_filter : ∀ (l : List Row)
    (seen : List (Int × Option String × Option String))
    (k : Int × Option String × Option String),
    (dropDupFirst l seen).filter (fun x => decide (rowKey x = k)) =
      if k ∈ seen then [] else (l.filter (fun x => decide (rowKey x = k))).take 1
  | [], seen, k => by simp [dropDupFirst]
  | r :: rs, seen, k => by
      rw [dropDupFirst]
      by_cases hr : rowKey r ∈ seen
      · rw [if_pos hr, dropDupFirst_filter rs seen k]
        by_cases hk : k ∈ seen
        · rw [if_pos hk, if_pos hk]
        · rw [if_neg hk, if_neg hk]
          have hne : ¬ rowKey r = k := fun he => hk (he ▸ hr)
          rw [List.filter_cons_of_neg (by simpa using hne)]
      · rw [if_neg hr]
        by_cases hrk : rowKey r = k
        · have hk : k ∉ seen := hrk ▸ hr
          rw [if_neg hk, List.filter_cons_of_pos (by simpa using hrk),
            List.filter_cons_of_pos (by simpa using hrk),
            dropDupFirst_filter rs (rowKey r :: seen) k,
            if_pos (hrk ▸ List.mem_cons_self _ _)]
          simp
        · rw [List.filter_cons_of_neg (by simpa using hrk),
            List.filter_cons_of_neg (by simpa using hrk),
            dropDupFirst_filter rs (rowKey r :: seen) k]
          by_cases hk : k ∈ seen
          · rw [if_pos hk, if_pos (List.mem_cons_of_mem _ hk)]
          · rw [if_neg hk, if_neg (by
              intro hmem
              rcases List.mem_cons.mp hmem with he | he
              · exact hrk he.symm
              · exact hk he)]

theorem drop_duplicates_filter (l : List Row) (k : Int × Option String × Option String) :
    (drop_duplicates l).filter (fun x => decide (rowKey x = k)) =
      (l.filter (fun x => decide (rowKey x = k))).take 1 := by
  rw [drop_duplicates, dropDupFirst_filter l [] k, if_neg (List.not_mem_nil k)]

theorem combine_data_some (hist : List Row) (api : Option (List Row)) :
    combine_data (some hist) api =
      some (drop_duplicates (sortRows (preDedupConcat hist api))) := rfl

theorem merge_core_empty (api : Option (List Row)) :
    drop_duplicates (sortRows (preDedupConcat [] api)) = [] := by
  cases api with
  | none => rfl
  | some a =>
      rw [preDedupConcat_some]
      have hnil : newApiRows [] a = [] := by
        rw [newApiRows]
        exact List.filter_eq_nil_iff.mpr (fun r _ => by simp [maxPlayedAt, playedAfter])
      rw [hnil]
      rfl

theorem combine_data_empty_hist (api : Option (List Row)) :
    combine_data (some []) api = some [] := by
  rw [combine_data_some, merge_core_empty]

theorem preDedupConcat_ne_nil (hist : List Row) (api : Option (List Row))
    (h : hist ≠ []) : preDedupConcat hist api ≠ [] := by
  cases api with
  | none => exact h
  | some a =>
      rw [preDedupConcat_some]
      intro he
      exact h (List.append_eq_nil.mp he).1

theorem sortRows_eq_nil_iff (l : List Row) : sortRows l = [] ↔ l = [] := by
  constructor
  · intro h
    have hlen := (sortRows_perm l).length_eq
    rw [h] at hlen
    cases l with
    | nil => rfl
    | cons x xs => simp at hlen
  · intro h
    subst h
    rfl

theorem drop_duplicates_ne_nil (l : List Row) (h : l ≠ []) : drop_duplicates l ≠ [] := by
  cases l with
  | nil => exact absurd rfl h
  | cons x xs =>
      rw [drop_duplicates, dropDupFirst, if_neg (List.not_mem_nil (rowKey x))]
      exact List.cons_ne_nil _ _

/-! ### Concrete rows for witnesses and counterexamples -/

/-- Build a canonical row with the fields the merge logic reads. -/
def mkRow (t : Int) (track artist album plat : Option String) : Row :=
  { played_at := t, track_name := track, artist_name := artist, album_name := album,
    duration_ms := 200000, spotify_track_uri := none, platform := plat,
    conn_country := none, shuffle := none, skipped := none }

def recentProbe : Row := mkRow 1000 (some "Track R") (some "Artist R") none (some "API")

def histA : Row := mkRow 500 (some "Track A") (some "Artist A") none (some "ios")

def histB : Row := mkRow 1000 (some "Track B") (some "Artist B") none (some "ios")

/-- A Historical table whose maximum timestamp is 1000. -/
def histSample : List Row := [histA, histB]

def apiAtT : Row := mkRow 1000 (some "Track C") (some "Artist C") none (some "API")

def apiAfterT : Row := mkRow 1001 (some "Track D") (some "Artist D") none (some "API")

def apiSample : List Row := [apiAtT, apiAfterT]

def histDupA : Row := mkRow 5 (some "Dup") (some "Art") (some "Album1") (some "ios")

def histDupB : Row := mkRow 5 (some "Dup") (some "Art") (some "Album2") (some "ios")

def histOther : Row := mkRow 3 (some "Other") (some "Art") none (some "ios")

/-- A Historical table carrying a duplicate `(played_at, track, artist)` key. -/
def hist3 : List Row := [histDupA, histDupB, histOther]

def apiNew : Row := mkRow 10 (some "New") (some "Art") none (some "API")

def api3 : List Row := [apiNew]

/-- Merged output of `hist3` with `api3`: sorted, first duplicate kept. -/
def out3 : List Row := [histOther, histDupA, apiNew]

def csvBase : CsvRow :=
  { ts := 100, ms_played := 200000, content_type := "audio",
    master_metadata_track_name := "Song", master_metadata_album_artist_name := "Artist",
    master_metadata_album_album_name := "Album", spotify_track_uri := "uri",
    platform := "ios", conn_country := "US", shuffle := some false, skipped := some false }

def csv29999 : CsvRow := { csvBase with ms_played := 29999 }

def csv30000 : CsvRow := { csvBase with ms_played := 30000 }

def csvNoTrack : CsvRow := { csvBase with master_metadata_track_name := "" }

/-- UTC 2017-01-01 04:59 — 23:59 of 2016-12-31 in US/Eastern. -/
def rowEarly : Row :=
  mkRow (17167 * msPerDay + 4 * msPerHour + 59 * 60000) (some "E") (some "A") none none

/-- UTC 2017-01-01 05:00 — midnight of 2017-01-01 in US/Eastern. -/
def rowLate : Row := mkRow (17167 * msPerDay + 5 * msPerHour) (some "L") (some "A") none none

def dashRows : List Row := [rowEarly, rowLate]

/-- The dashboard row `load_data` derives from `rowLate`. -/
def dashLate : DashRow :=
  { base := rowLate, played_at_local := 17167 * msPerDay, year := 2017, month := 1,
    hour := 0, day_of_week := 6 }

/-! ### Claim theorems -/

/-- C1 counterexample: `combine_data` invoked with an empty (zero-row)
Historical table and a non-empty Recent table does not fail — it returns a
merged table (the empty one), so an empty Historical table is silently
accepted rather than rejected with an error. -/
theorem C1_counterexample :
    combine_data (some ([] : List Row)) (some [recentProbe]) = some [] := by decide

/-- C1 (amended): the Merge Engine fails exactly when Historical was never
loaded (`historical_data is None`); an empty-but-present Historical table is
silently accepted and produces an empty Merged table — no Recent row passes
the NaT cutoff comparison, so Recent alone is still never used as the
timeline. -/
theorem C1_empty_historical (api : Option (List Row)) :
    combine_data none api = none ∧ combine_data (some []) api = some [] :=
  ⟨rfl, combine_data_empty_hist api⟩

/-- C2: with non-empty Historical of maximum timestamp `T`, the pre-dedup
concatenation is Historical followed by exactly the Recent rows admitted by
the cutoff filter, and a Recent row is admitted iff its `played_at` is
strictly greater than `T` (a row at exactly `T` is excluded, a row at
`T + 1` ms included). -/
theorem C2_merge_cutoff_strict (hist api : List Row) (T : Int)
    (hmax : maxPlayedAt hist = some T) :
    preDedupConcat hist (some api) = hist ++ newApiRows hist api ∧
    ∀ r ∈ api, (r ∈ newApiRows hist api ↔ T < r.played_at) := by
  refine ⟨preDedupConcat_some hist api, fun r hr => ?_⟩
  rw [mem_newApiRows hist api T hmax r]
  exact ⟨fun h => h.2, fun h => ⟨hr, h⟩⟩

/-- C2 witness: over a Historical table with max 1000, the Recent row at
exactly 1000 is excluded and the row at 1001 is included. -/
theorem C2_witness :
    (apiAtT ∈ newApiRows histSample apiSample ↔ 1000 < apiAtT.played_at) ∧
    (apiAfterT ∈ newApiRows histSample apiSample ↔ 1000 < apiAfterT.played_at) :=
  ⟨(C2_merge_cutoff_strict histSample apiSample 1000 (by decide)).2 apiAtT (by decide),
   (C2_merge_cutoff_strict histSample apiSample 1000 (by decide)).2 apiAfterT (by decide)⟩

/-- C3: in a successful merge no two output rows share the
`(played_at, track_name, artist_name)` key; for every key the surviving
rows are exactly the first occurrence of that key in the sorted pre-dedup
list; and whenever a Historical row and an admitted Recent row were to share
a key (which forces equal timestamps), the Recent one is not in the output. -/
theorem C3_dedup_invariant (hist : List Row) (api : Option (List Row)) (out : List Row)
    (hc : combine_data (some hist) api = some out) :
    out.Pairwise (fun x y => rowKey x ≠ rowKey y) ∧
    (∀ k, out.filter (fun x => decide (rowKey x = k)) =
        ((sortRows (preDedupConcat hist api)).filter (fun x => decide (rowKey x = k))).take 1) ∧
    (∀ hrow ∈ hist, ∀ r ∈ newApiRows hist (api.getD []), rowKey hrow = rowKey r → r ∉ out) := by
  rw [combine_data_some, Option.some_inj] at hc
  subst hc
  refine ⟨dropDupFirst_pairwise _ [], fun k => drop_duplicates_filter _ k, ?_⟩
  intro hrow hh r hrApi hkey
  exfalso
  cases hmo : maxPlayedAt hist with
  | none =>
      rw [newApiRows, hmo] at hrApi
      simp [playedAfter] at hrApi
  | some T =>
      have h1 := (mem_newApiRows hist (api.getD []) T hmo r).mp hrApi
      have h2 := maxPlayedAt_le hist T hmo hrow hh
      have h3 : hrow.played_at = r.played_at := congrArg Prod.fst hkey
      omega

/-- C3 witness: on a Historical table with a duplicated key and one admitted
Recent row the merged output keeps one row per key, and the survivor for the
duplicated key is the first occurrence in sort order. -/
theorem C3_witness :
    out3.Pairwise (fun x y => rowKey x ≠ rowKey y) ∧
    out3.filter (fun x => decide (rowKey x = rowKey histDupB)) =
      ((sortRows (preDedupConcat hist3 (some api3))).filter
        (fun x => decide (rowKey x = rowKey histDupB))).take 1 :=
  ⟨(C3_dedup_invariant hist3 (some api3) out3 (by decide)).1,
   (C3_dedup_invariant hist3 (some api3) out3 (by decide)).2.1 (rowKey histDupB)⟩

/-- C4: every successful merge output is non-decreasing in `played_at`:
each row's timestamp is at most the next row's. -/
theorem C4_sort_invariant (historical api : Option (List Row)) (out : List Row)
    (hc : combine_data historical api = some out) :
    ∀ (i : Nat) (hi : i + 1 < out.length),
      (out.get ⟨i, Nat.lt_of_succ_lt hi⟩).played_at ≤ (out.get ⟨i + 1, hi⟩).played_at := by
  cases historical with
  | none => simp [combine_data] at hc
  | some hist =>
      rw [combine_data_some, Option.some_inj] at hc
      subst hc
      intro i hi
      have hsorted : List.Sorted rowLE (sortRows (preDedupConcat hist api)) := sortRows_sorted _
      have hsub := dropDupFirst_sublist (sortRows (preDedupConcat hist api)) []
      have hp : (drop_duplicates (sortRows (preDedupConcat hist api))).Pairwise rowLE :=
        hsorted.sublist hsub
      exact List.pairwise_iff_get.mp hp ⟨i, Nat.lt_of_succ_lt hi⟩ ⟨i + 1, hi⟩ (by simp)

/-- C4 witness: the sort invariant instantiated on a concrete merge at the
first adjacent pair. -/
theorem C4_witness :
    (out3.get ⟨0, by decide⟩).played_at ≤ (out3.get ⟨1, by decide⟩).played_at :=
  C4_sort_invariant (some hist3) (some api3) out3 (by decide) 0 (by decide)

/-- C5: with non-empty Historical, a Recent fetch that raised (caught, the
fetcher returns `False` and leaves no API data) or returned zero rows still
lets the Merge Engine produce the merge of Historical alone — Historical
sorted and deduplicated. -/
theorem C5_graceful_degradation (hist : List Row) (err : String) (_hne : hist ≠ []) :
    (fetch_recent_api_data true (Except.error err)).2 = none ∧
    combine_data (some hist) (fetch_recent_api_data true (Except.error err)).2 =
      combine_data (some hist) none ∧
    combine_data (some hist) (fetch_recent_api_data true (Except.ok [])).2 =
      combine_data (some hist) none ∧
    combine_data (some hist) none = some (drop_duplicates (sortRows hist)) :=
  ⟨rfl, rfl, rfl, rfl⟩

/-- C5 witness: graceful degradation on a concrete Historical table and a
concrete fetch error. -/
theorem C5_witness :
    (fetch_recent_api_data true (Except.error "rate limit")).2 = none ∧
    combine_data (some histSample) (fetch_recent_api_data true (Except.error "rate limit")).2 =
      combine_data (some histSample) none ∧
    combine_data (some histSample) (fetch_recent_api_data true (Except.ok [])).2 =
      combine_data (some histSample) none ∧
    combine_data (some histSample) none = some (drop_duplicates (sortRows histSample)) :=
  C5_graceful_degradation histSample "rate limit" (by decide)

/-- C6: every row of the Historical Loader's output has
`duration_ms = ms_played ≥ 30000`; concretely, loading a 29999 ms row next
to a 30000 ms row keeps only the latter. -/
theorem C6_threshold_filter :
    (∀ (rows : List CsvRow) (r : Row), r ∈ load_historical_csv rows →
      MIN_PLAY_TIME_MS ≤ r.duration_ms) ∧
    load_historical_csv [csv29999, csv30000] = [toCanonical csv30000] := by
  constructor
  · intro rows r hr
    simp only [load_historical_csv, List.mem_filter, List.mem_map] at hr
    obtain ⟨⟨c, ⟨⟨_hcmem, hms⟩, _hct⟩, rfl⟩, _htr⟩ := hr
    exact of_decide_eq_true hms
  · decide

/-- C6 witness: the 30000 ms boundary row passes the loader and its
duration field meets the floor. -/
theorem C6_witness : MIN_PLAY_TIME_MS ≤ (toCanonical csv30000).duration_ms :=
  C6_threshold_filter.1 [csv30000] (toCanonical csv30000) (by decide)

/-- C7: a historical row whose track name normalizes to null — pandas reads
an empty field as NaN, so both null and the empty string land on `none` — is
dropped whatever its other fields; every loader output row has a non-null
track name. -/
theorem C7_null_track_drop (rows : List CsvRow) (c : CsvRow)
    (hnull : readCell c.master_metadata_track_name = none ∨
      c.master_metadata_track_name = "") :
    toCanonical c ∉ load_historical_csv rows ∧
    ∀ r ∈ load_historical_csv rows, r.track_name.isSome := by
  have hnone : (toCanonical c).track_name = none := by
    rcases hnull with h | h
    · exact h
    · simp [toCanonical, readCell, h]
  have hall : ∀ r ∈ load_historical_csv rows, r.track_name.isSome := by
    intro r hr
    simp only [load_historical_csv, List.mem_filter] at hr
    exact hr.2
  refine ⟨fun hmem => ?_, hall⟩
  have hs := hall _ hmem
  rw [hnone] at hs
  simp at hs

/-- C7 witness: the empty-track row is not in the loader output even though
its other fields pass every other filter. -/
theorem C7_witness :
    toCanonical csvNoTrack ∉ load_historical_csv [csvNoTrack, csv30000] :=
  (C7_null_track_drop [csvNoTrack, csv30000] csvNoTrack (Or.inr rfl)).1

/-- C8 counterexample: with the historical source missing the script's
`main` still exits with code 0 — the claim's required non-zero exit code
does not happen (the failure is only printed; every path of `main` ends in
a plain `return` and the script never calls `sys.exit`). -/
theorem C8_counterexample : main_exit false [] false (Except.ok []) = 0 := rfl

/-- C8 (amended): when the historical source is missing the CLI exits with
code zero — the failure is only reported on the console; when the source is
present, the process exits zero except when every historical row is
filtered out, in which case the merged table is empty, `get_statistics`
calls `strftime` on the NaT minimum timestamp, the `ValueError` is
uncaught, and the process exits non-zero. -/
theorem C8_exit_code (csvExists : Bool) (rows : List CsvRow) (connected : Bool)
    (callResult : Except String (List ApiItem)) :
    (csvExists = false → main_exit csvExists rows connected callResult = 0) ∧
    (main_exit csvExists rows connected callResult ≠ 0 ↔
      csvExists = true ∧ load_historical_csv rows = []) := by
  cases csvExists with
  | false =>
      refine ⟨fun _ => rfl, ?_⟩
      simp [main_exit, load_csv]
  | true =>
      refine ⟨fun h => Bool.noConfusion h, ?_⟩
      have hm : main_exit true rows connected callResult =
          if drop_duplicates (sortRows (preDedupConcat (load_historical_csv rows)
              (fetch_recent_api_data connected callResult).2)) = [] then 1 else 0 := rfl
      rw [hm]
      by_cases he : load_historical_csv rows = []
      · rw [he, merge_core_empty]
        simp [he]
      · have h3 : drop_duplicates (sortRows (preDedupConcat (load_historical_csv rows)
            (fetch_recent_api_data connected callResult).2)) ≠ [] :=
          drop_duplicates_ne_nil _ (fun hx =>
            preDedupConcat_ne_nil _ _ he ((sortRows_eq_nil_iff _).mp hx))
        rw [if_neg h3]
        simp [he]

/-- C9: on months 1..12, `get_season` is a total non-overlapping partition
with {12,1,2} → Winter, {3,4,5} → Spring, {6,7,8} → Summer,
{9,10,11} → Fall. -/
theorem C9_season_partition :
    (∀ m : Int, 1 ≤ m → m ≤ 12 →
      (get_season m = "Winter" ∨ get_season m = "Spring" ∨
        get_season m = "Summer" ∨ get_season m = "Fall") ∧
      (get_season m = "Winter" ↔ (m = 12 ∨ m = 1 ∨ m = 2)) ∧
      (get_season m = "Spring" ↔ (m = 3 ∨ m = 4 ∨ m = 5)) ∧
      (get_season m = "Summer" ↔ (m = 6 ∨ m = 7 ∨ m = 8)) ∧
      (get_season m = "Fall" ↔ (m = 9 ∨ m = 10 ∨ m = 11))) ∧
    get_season 1 = "Winter" ∧ get_season 3 = "Spring" ∧
      get_season 6 = "Summer" ∧ get_season 12 = "Winter" := by
  constructor
  · intro m h1 h2
    interval_cases m <;> exact (by decide)
  · exact ⟨by decide, by decide, by decide, by decide⟩

/-- C9 witness: June maps to Summer via the partition. -/
theorem C9_witness : get_season 6 = "Summer" :=
  ((C9_season_partition.1 6 (by decide) (by decide)).2.2.2.1).mpr (Or.inl rfl)

/-- C10: the dashboard loader keeps a merged-file row iff its `played_at`,
converted to US/Eastern, falls in calendar year 2017 or later, and every
retained dashboard row carries a local year ≥ 2017 — all dashboard
aggregates are computed from this truncated list. -/
theorem C10_year_cutoff (rows : List Row) :
    (∀ r : Row, (∃ d ∈ load_data rows, d.base = r) ↔
      (r ∈ rows ∧ 2017 ≤ easternYear r.played_at)) ∧
    (∀ d ∈ load_data rows, 2017 ≤ d.year) := by
  constructor
  · intro r
    constructor
    · rintro ⟨d, hd, hbase⟩
      simp only [load_data, List.mem_map, List.mem_filter] at hd
      obtain ⟨p, ⟨⟨r0, hr0, rfl⟩, hyear⟩, rfl⟩ := hd
      have hr : r0 = r := hbase
      subst hr
      exact ⟨hr0, of_decide_eq_true hyear⟩
    · rintro ⟨hmem, hyr⟩
      refine ⟨⟨r, tz_convert_eastern r.played_at,
        civilYear ((tz_convert_eastern r.played_at).fdiv msPerDay),
        civilMonth ((tz_convert_eastern r.played_at).fdiv msPerDay),
        ((tz_convert_eastern r.played_at).emod msPerDay).fdiv msPerHour,
        ((tz_convert_eastern r.played_at).fdiv msPerDay + 3).emod 7⟩,
        ?_, rfl⟩
      simp only [load_data, List.mem_map, List.mem_filter]
      exact ⟨(r, tz_convert_eastern r.played_at), ⟨⟨r, hmem, rfl⟩, decide_eq_true hyr⟩, rfl⟩
  · intro d hd
    simp only [load_data, List.mem_map, List.mem_filter] at hd
    obtain ⟨p, ⟨_, hyear⟩, rfl⟩ := hd
    exact of_decide_eq_true hyear

/-- C10 witness: the row at UTC 2017-01-01 05:00 (Eastern midnight of
2017-01-01) is retained and its dashboard year is 2017. -/
theorem C10_witness : 2017 ≤ dashLate.year :=
  (C10_year_cutoff dashRows).2 dashLate (by decide)

/-- C1 witness: the amended behavior at a concrete Recent table. -/
theorem C1_witness :
    combine_data none (some [recentProbe]) = none ∧
    combine_data (some []) (some [recentProbe]) = some [] :=
  C1_empty_historical (some [recentProbe])

/-- C8 witness: a run whose only historical row is filtered out (29999 ms)
exits non-zero via the NaT `strftime` crash, while a run with a surviving
row (30000 ms) exits zero. -/
theorem C8_witness :
    main_exit true [csv29999] false (Except.ok []) ≠ 0 ∧
    main_exit true [csv30000] false (Except.ok []) = 0 :=
  ⟨(C8_exit_code true [csv29999] false (Except.ok [])).2.mpr ⟨rfl, by decide⟩,
   not_ne_iff.mp (fun hne =>
     absurd ((C8_exit_code true [csv30000] false (Except.ok [])).2.mp hne).2
       (by decide))⟩
